import Mathlib

/-!
Verification of the lambda-functions job scheduler
(src/lambdascript/lambda_function.py, src/lambdascript/constants.py).

The Python code is shallowly embedded: S3 object keys and Python strings
are lists of characters, JSON object bodies are association lists,
Python ints are Lean integers, and every store-mutating procedure is
translated to a pure function that returns the list of store actions it
performs together with an optional uncaught exception.  External
collaborators (CodeBuild, the wall clock, datetime parsing) are
parameters of the embedding.
-/

namespace Sched

/-- Python strings and S3 object keys are modelled as lists of characters. -/
abbrev Chars := List Char

/-- A JSON scalar value occurring in a ticket body (the scheduler only
reads string-valued and integer-valued fields). -/
inductive PyVal where
  | int (n : Int)
  | str (s : Chars)
  deriving DecidableEq

/-- A decoded JSON object body: an association list of fields, in
insertion order, as a Python dict. -/
abbrev Dict := List (Chars × PyVal)

/-- The payload stored under an S3 key.  `empty` is the zero-byte object
created by `put_object` with no `Body`; `raw` is a payload that is not a
parseable JSON object; `dict` is a decoded JSON object. -/
inductive ObjBody where
  | empty
  | raw (s : Chars)
  | dict (d : Dict)
  deriving DecidableEq

/-- The S3 bucket contents, in listing order (every operation of the
scheduler targets the single bucket `constants.BUCKET_NAME`, so the
bucket name is left implicit). -/
abbrev Store := List (Chars × ObjBody)

/-- The uncaught Python exceptions that the scheduler code can raise. -/
inductive PyErr where
  | attributeError
  | keyError
  | assertionError
  | jsonDecodeError
  | typeError
  | clientError
  deriving DecidableEq

/-- A store write performed by the scheduler, in program order. -/
inductive Action where
  | put (key : Chars) (body : ObjBody)
  | delete (key : Chars)
  deriving DecidableEq

/-- First-match association lookup: Python dict subscript and module
attribute access. -/
def lookupAssoc {α : Type} : List (Chars × α) → Chars → Option α
  | [], _ => none
  | (k, v) :: rest, key => if k = key then some v else lookupAssoc rest key

/-- Python dict assignment `d[k] = v`: replaces the value at an existing
key in place, otherwise appends the new pair. -/
def dictSet : Dict → Chars → PyVal → Dict
  | [], key, v => [(key, v)]
  | (k, w) :: rest, key, v =>
    if k = key then (key, v) :: rest else (k, w) :: dictSet rest key v

/-- `needle in haystack` for Python strings: substring containment. -/
def containsSub (needle : Chars) : Chars → Bool
  | [] => decide (needle = [])
  | c :: rest => needle.isPrefixOf (c :: rest) || containsSub needle rest

/-- Bool-valued prefix test on character lists. -/
def startsWithChars : Chars → Chars → Bool
  | [], _ => true
  | _ :: _, [] => false
  | p :: ps, c :: cs => if p = c then startsWithChars ps cs else false

/-- Python `str.endswith`. -/
def pyEndsWith (l suffix : Chars) : Bool :=
  startsWithChars suffix.reverse l.reverse

/-- Python `s.split(sep)[-1]`: the suffix after the last occurrence of
the separator (the whole string when the separator is absent). -/
def afterLastSep (sep : Char) : Chars → Chars
  | [] => []
  | c :: rest =>
    if c = sep ∨ sep ∈ rest then afterLastSep sep rest else c :: rest

/-- Python `s.split(".")[0]`: the prefix before the first dot (the whole
string when no dot occurs). -/
def beforeFirstDot : Chars → Chars
  | [] => []
  | c :: rest => if c = '.' then [] else c :: beforeFirstDot rest

/-- Python string `<` (lexicographic comparison by code point). -/
def pyStrLt : Chars → Chars → Bool
  | [], [] => false
  | [], _ :: _ => true
  | _ :: _, [] => false
  | a :: as, b :: bs => if a = b then pyStrLt as bs else decide (a < b)

/-- Python string `>`. -/
def pyStrGt (a b : Chars) : Bool := pyStrLt b a

/-! String literals of the source, as character lists. -/

def sTensorflow : Chars := "tensorflow".toList

def sGpu : Chars := "gpu".toList

def sTraining : Chars := "training".toList

def sInference : Chars := "inference".toList

def sMlP3 : Chars := "ml.p3.8xlarge".toList

def sMlC44 : Chars := "ml.c4.4xlarge".toList

def sMlP2 : Chars := "ml.p2.8xlarge".toList

def sMlC48 : Chars := "ml.c4.8xlarge".toList

def sPreparing : Chars := "preparing".toList

def sPreparingJson : Chars := "preparing.json".toList

def sRunningJson : Chars := "running.json".toList

def sDotJson : Chars := ".json".toList

def sResourcePool : Chars := "resource_pool/".toList

def sRequestTickets : Chars := "request_tickets/".toList

def sDeadLetterQueue : Chars := "dead_letter_queue/".toList

def sMaxRetriesSuffix : Chars := "-maxRetries.json".toList

def sTimeoutSuffix : Chars := "-timeout.json".toList

def kECRURI : Chars := "ECR-URI".toList

def kCONTEXT : Chars := "CONTEXT".toList

def kRETURNSQSURL : Chars := "RETURN-SQS-URL".toList

def kINSTANCESNUM : Chars := "INSTANCES_NUM".toList

def kSCHEDULINGTRIES : Chars := "SCHEDULING_TRIES".toList

def kTIMESTAMP : Chars := "TIMESTAMP".toList

def kTIMEOUTLIMIT : Chars := "TIMEOUT_LIMIT".toList

def kREQUESTTICKETKEY : Chars := "REQUEST_TICKET_KEY".toList

def kINSTANCETYPE : Chars := "INSTANCE_TYPE".toList

def kSTATUS : Chars := "STATUS".toList

def kMAXSCHEDULINGRETRIES : Chars := "MAX_SCHEDULING_RETRIES".toList

/-- The module attributes defined in src/lambdascript/constants.py that
hold integers, as a name-to-value map (module attribute access on a
missing name raises AttributeError, modelled by a failing lookup).
Note that the file defines MAX_SCHEDULING_TRIES, and no attribute named
MAX_SCHEDULING_RETRIES. -/
def constantsAttrs : List (Chars × Int) :=
  [("TIMEOUT_LIMIT_SECONDS".toList, 780),
   ("MAX_SCHEDULING_TRIES".toList, 5),
   ("P3_8XLARGE_INFERENCE".toList, 20),
   ("C4_4XLARGE_INFERENCE".toList, 30),
   ("P2_8XLARGE_INFERENCE".toList, 20),
   ("C4_8XLARGE_INFERENCE".toList, 30),
   ("P3_8XLARGE_TRAINING".toList, 40),
   ("C4_4XLARGE_TRAINING".toList, 50),
   ("P2_8XLARGE_TRAINING".toList, 40),
   ("C4_8XLARGE_TRAINING".toList, 50)]

/-- constants.TRAINING_LIMIT. -/
def TRAINING_LIMIT : List (Chars × Int) :=
  [(sMlP2, 40), (sMlC44, 50), (sMlC48, 50), (sMlP3, 40)]

/-- constants.INFERENCE_LIMIT. -/
def INFERENCE_LIMIT : List (Chars × Int) :=
  [(sMlP2, 20), (sMlC44, 30), (sMlC48, 30), (sMlP3, 20)]

/-- assign_sagemaker_instance_type (lambda_function.py lines 50-60). -/
def assign_sagemaker_instance_type (image : Chars) : Chars :=
  if containsSub sTensorflow image then
    if containsSub sGpu image then sMlP3 else sMlC44
  else
    if containsSub sGpu image then sMlP2 else sMlC48

/-- check_sagemaker_instance_limit (lines 63-78): asserts that the image
identifier mentions training or inference, then looks the assigned
instance type up in the quota table of the matching job kind. -/
def check_sagemaker_instance_limit (image : Chars) : Except PyErr Int :=
  if containsSub sTraining image || containsSub sInference image then
    let instance_type := assign_sagemaker_instance_type image
    if containsSub sTraining image then
      match lookupAssoc TRAINING_LIMIT instance_type with
      | some l => .ok l
      | none => .error .keyError
    else
      match lookupAssoc INFERENCE_LIMIT instance_type with
      | some l => .ok l
      | none => .error .keyError
  else .error .assertionError

/-- The regular expression match of line 92, re.match on the pattern
dot-star, hash, one captured digit, dash, dot-star.  The leading
dot-star is greedy, so the captured digit is the one at the last
position in the key where hash-digit-dash occurs; the result is `none`
when no such position exists (`.group(1)` on the resulting Python
`None` then raises AttributeError at the call site). -/
def reHeadMatch (c : Char) (rest : Chars) : Option Nat :=
  match c, rest with
  | '#', d :: '-' :: _ => if d.isDigit then some (d.toNat - 48) else none
  | _, _ => none

def reLastHashDigitDash : Chars → Option Nat
  | [] => none
  | c :: rest =>
    match reLastHashDigitDash rest with
    | some n => some n
    | none => reHeadMatch c rest

/-- The S3 namespace of ledger entries of one resource class:
resource_pool/{instance_type}-{job_type}/. -/
def poolNamespace (instance_type job_type : Chars) : Chars :=
  sResourcePool ++ instance_type ++ '-' :: job_type ++ ['/']

/-- Keys of the store that a list-by-prefix call returns, in listing
order. -/
def listUnder (p : Chars) (st : Store) : Store :=
  st.filter (fun e => p.isPrefixOf e.1)

/-- The summation loop of get_num_instances_running (lines 94-97): for
every listed key with a preparing.json or running.json suffix, parse the
reserved count out of the key and accumulate; a key passing the suffix
filter whose count does not parse aborts with AttributeError. -/
def sumReserved : List Chars → Except PyErr Int
  | [] => .ok 0
  | key :: rest =>
    if pyEndsWith key sPreparingJson || pyEndsWith key sRunningJson then
      match reLastHashDigitDash key with
      | none => .error .attributeError
      | some n => (sumReserved rest).map (fun s => (n : Int) + s)
    else sumReserved rest

/-- get_num_instances_running (lines 81-99).  When no key matches the
prefix, the list_objects response has no Contents entry and the
subscript at line 94 raises KeyError. -/
def get_num_instances_running (instance_type job_type : Chars) (st : Store) :
    Except PyErr Int :=
  match listUnder (poolNamespace instance_type job_type) st with
  | [] => .error .keyError
  | entries => sumReserved (entries.map Prod.fst)

/-- The ledger-entry key written by update_resource_pool (lines 44-46):
resource_pool/{instance_type}-{job_type}/{ticket name}#{num}-preparing.json
where the ticket name is the ticket key after the last slash and before
the first dot. -/
def poolTicketKey (ticket_key instance_type job_type : Chars) (num : Int) : Chars :=
  poolNamespace instance_type job_type ++
    (beforeFirstDot (afterLastSep '/' ticket_key) ++
      '#' :: (toString num).toList ++ '-' :: sPreparingJson)

/-- update_resource_pool (lines 21-47): writes the in-progress ledger
entry, first as an empty object (put_object with no body), then with the
JSON content. -/
def update_resource_pool (ticket_key instance_type : Chars) (num_of_instances : Int)
    (job_type : Chars) : List Action :=
  let key := poolTicketKey ticket_key instance_type job_type num_of_instances
  let content : Dict :=
    [(kREQUESTTICKETKEY, .str ticket_key),
     (kINSTANCETYPE, .str instance_type),
     (kINSTANCESNUM, .int num_of_instances),
     (kSTATUS, .str sPreparing)]
  [.put key .empty, .put key (.dict content)]

/-- update_ticket (lines 154-196).  `consts` is the attribute map of the
constants module (line 171 reads constants.MAX_SCHEDULING_RETRIES from
it); `parseTs` models datetime.strptime composed with conversion to
epoch seconds, and `now` is datetime.now() in the same scale. -/
def update_ticket (consts : List (Chars × Int)) (parseTs : Chars → Int) (now : Int)
    (ticket_key : Chars) (ticket_body : Dict) : List Action × Option PyErr :=
  match lookupAssoc ticket_body kSCHEDULINGTRIES with
  | none => ([], some .keyError)
  | some triesVal =>
  match lookupAssoc ticket_body kTIMESTAMP with
  | none => ([], some .keyError)
  | some tsVal =>
  match lookupAssoc ticket_body kTIMEOUTLIMIT with
  | none => ([], some .keyError)
  | some tlVal =>
  match lookupAssoc consts kMAXSCHEDULINGRETRIES with
  | none => ([], some .attributeError)
  | some maxRetries =>
  match triesVal with
  | .int num_of_tries =>
    if num_of_tries ≥ maxRetries then
      let dlKey := sDeadLetterQueue ++
        (beforeFirstDot (afterLastSep '/' ticket_key) ++ sMaxRetriesSuffix)
      ([.delete ticket_key, .put dlKey .empty, .put dlKey (.dict ticket_body)], none)
    else
      match tsVal, tlVal with
      | .str request_time, .int timeout_limit =>
        if now - parseTs request_time > timeout_limit then
          let dlKey := sDeadLetterQueue ++
            (beforeFirstDot (afterLastSep '/' ticket_key) ++ sTimeoutSuffix)
          ([.delete ticket_key, .put dlKey .empty, .put dlKey (.dict ticket_body)], none)
        else
          let newBody := dictSet ticket_body kSCHEDULINGTRIES (.int (num_of_tries + 1))
          let rqKey := sRequestTickets ++ afterLastSep '/' ticket_key
          ([.put rqKey .empty, .put rqKey (.dict newBody)], none)
      | _, _ => ([], some .typeError)
  | _ => ([], some .typeError)

/-- check_timeout (lines 199-207): true when the elapsed seconds reach
constants.TIMEOUT_LIMIT_SECONDS = 780, in which case the program calls
sys.exit. -/
def check_timeout (elapsed : Int) : Bool := 780 ≤ elapsed

/-- ticket_timestamp_cmp_function (lines 210-222): extracts from each
key the substring after the last slash, before the first dot and after
the last underscore, and returns the Python bool of a string `>`
comparison of the two timestamps. -/
def ticketTimestamp (key : Chars) : Chars :=
  afterLastSep '_' (beforeFirstDot (afterLastSep '/' key))

/-- The comparator passed to cmp_to_key at line 232. -/
def ticket_timestamp_cmp_function (t1 t2 : Chars × ObjBody) : Bool :=
  pyStrGt (ticketTimestamp t1.1) (ticketTimestamp t2.1)

/-- functools.cmp_to_key: the sort compares wrapped elements with
`mycmp(a, b) < 0`.  The comparator of this program returns a Python
bool, which an integer comparison treats as 0 or 1. -/
def cmpToKeyLt {α : Type _} (cmp : α → α → Bool) (a b : α) : Bool :=
  decide (((if cmp a b then 1 else 0) : Int) < 0)

/-- Stable insertion used to model CPython list.sort: an arriving
element is placed before the first existing element that it is
strictly-less than, and otherwise keeps arrival order. -/
def stableInsert {α : Type _} (lt : α → α → Bool) (x : α) : List α → List α
  | [] => [x]
  | y :: ys => if lt x y then x :: y :: ys else y :: stableInsert lt x ys

/-- CPython list.sort: a stable sort driven solely by the strict `<`
comparison of the key objects. -/
def pyStableSort {α : Type _} (lt : α → α → Bool) (l : List α) : List α :=
  l.foldl (fun acc x => stableInsert lt x acc) []

/-- Line 232: tickets_list.sort(key=cmp_to_key(ticket_timestamp_cmp_function)). -/
def sortTickets (l : List (Chars × ObjBody)) : List (Chars × ObjBody) :=
  pyStableSort (cmpToKeyLt ticket_timestamp_cmp_function) l

/-- json.loads of an object body (line 238): only a decoded JSON object
parses; a zero-byte or non-JSON payload raises JSONDecodeError. -/
def pyJsonLoads : ObjBody → Except PyErr Dict
  | .dict d => .ok d
  | _ => .error .jsonDecodeError

/-- S3 put-by-key: overwrite in place, or append a new key. -/
def storePut : Store → Chars → ObjBody → Store
  | [], key, b => [(key, b)]
  | (k, w) :: rest, key, b =>
    if k = key then (key, b) :: rest else (k, w) :: storePut rest key b

/-- S3 delete-by-key. -/
def storeDelete : Store → Chars → Store
  | [], _ => []
  | (k, w) :: rest, key =>
    if k = key then rest else (k, w) :: storeDelete rest key

/-- Replay a trace of store writes onto the store. -/
def applyActions (st : Store) : List Action → Store
  | [] => st
  | .put k b :: rest => applyActions (storePut st k b) rest
  | .delete k :: rest => applyActions (storeDelete st k) rest

/-- The external collaborators of one scheduler pass: the CodeBuild
trigger outcome per ticket key, the timestamp parser, and the wall
clock sampled at the i-th loop iteration (elapsed seconds for
check_timeout, absolute seconds for update_ticket). -/
structure Env where
  trigger : Chars → Bool
  parseTs : Chars → Int
  elapsedAt : Nat → Int
  nowAt : Nat → Int

/-- Lines 253-266 of lambda_handler: the admission decision for one
ticket and its consequences.  `in_use` and `limit` are the values
computed at lines 247-248, `required` is the INSTANCES_NUM field value
(its integer nature is only forced at the comparison of line 254), and
`triggerOk` is the result of the trigger_build call. -/
def scheduleTail (consts : List (Chars × Int)) (parseTs : Chars → Int) (now : Int)
    (ticket_key : Chars) (ticket_body : Dict) (instance_type job_type : Chars)
    (in_use : Int) (required : PyVal) (limit : Int) (triggerOk : Bool) :
    List Action × Option PyErr :=
  match required with
  | .int instances_required =>
    if in_use + instances_required < limit then
      if triggerOk then
        (update_resource_pool ticket_key instance_type instances_required job_type ++
          [.delete ticket_key], none)
      else update_ticket consts parseTs now ticket_key ticket_body
    else update_ticket consts parseTs now ticket_key ticket_body
  | _ => ([], some .typeError)

/-- One iteration of the loop at lines 234-266 after the check_timeout
call: read the ticket, decode it, read its fields, classify, compute
utilization and limit, assert the quota invariant, and run the
admission tail.  Returns the performed writes, the store after them and
an uncaught exception when one is raised. -/
def processTicket (env : Env) (i : Nat) (st : Store) (ticket_key : Chars) :
    List Action × Store × Option PyErr :=
  match lookupAssoc st ticket_key with
  | none => ([], st, some .clientError)
  | some body =>
  match pyJsonLoads body with
  | .error e => ([], st, some e)
  | .ok ticket_body =>
  match lookupAssoc ticket_body kECRURI with
  | none => ([], st, some .keyError)
  | some imageVal =>
  if (lookupAssoc ticket_body kCONTEXT).isNone then ([], st, some .keyError)
  else if (lookupAssoc ticket_body kRETURNSQSURL).isNone then ([], st, some .keyError)
  else
  match lookupAssoc ticket_body kINSTANCESNUM with
  | none => ([], st, some .keyError)
  | some required =>
  match imageVal with
  | .str image_uri =>
    let instance_type := assign_sagemaker_instance_type image_uri
    let job_type := if containsSub sTraining image_uri then sTraining else sInference
    match get_num_instances_running instance_type job_type st with
    | .error e => ([], st, some e)
    | .ok instances_in_use =>
    match check_sagemaker_instance_limit image_uri with
    | .error e => ([], st, some e)
    | .ok instances_limit =>
    if instances_limit ≥ instances_in_use then
      let r := scheduleTail constantsAttrs env.parseTs (env.nowAt i) ticket_key
        ticket_body instance_type job_type instances_in_use required instances_limit
        (env.trigger ticket_key)
      (r.1, applyActions st r.1, r.2)
    else ([], st, some .assertionError)
  | _ => ([], st, some .typeError)

/-- The outcome of one scheduler pass: drained the queue, exited on the
wall-clock budget, or aborted on an uncaught exception. -/
inductive PassResult where
  | done
  | timedOut
  | failed (e : PyErr)
  deriving DecidableEq

/-- The ticket loop of lambda_handler (lines 234-266), over the sorted
ticket listing, threading the store and collecting the write trace. -/
def runPass (env : Env) : Nat → Store → List (Chars × ObjBody) →
    List Action × Store × PassResult
  | _, st, [] => ([], st, .done)
  | i, st, ticket :: rest =>
    if check_timeout (env.elapsedAt i) then ([], st, .timedOut)
    else
      match processTicket env i st ticket.1 with
      | (acts, st2, some e) => (acts, st2, .failed e)
      | (acts, st2, none) =>
        let r := runPass env (i + 1) st2 rest
        (acts ++ r.1, r.2.1, r.2.2)

/-- lambda_handler (lines 225-266): list the request-ticket namespace
(KeyError on the Contents subscript when it is empty), keep the .json
keys, sort with the timestamp comparator, and run the loop. -/
def lambda_handler (env : Env) (st : Store) : List Action × Store × PassResult :=
  match listUnder sRequestTickets st with
  | [] => ([], st, .failed .keyError)
  | listing =>
    let tickets_list := listing.filter (fun t => pyEndsWith t.1 sDotJson)
    runPass env 0 st (sortTickets tickets_list)

/-- Modelled from the spec: the four-way decision table of the Resource
Classifier (framework marker presence crossed with accelerator marker
presence), stated from the words of section 4.1 for comparison with
assign_sagemaker_instance_type. -/
def specFourWayTable (framework accelerator : Bool) : Chars :=
  match framework, accelerator with
  | true, true => sMlP3
  | true, false => sMlC44
  | false, true => sMlP2
  | false, false => sMlC48

deriving instance DecidableEq for Except

/-! Helper lemmas. -/

theorem lookup_max_retries_none :
    lookupAssoc constantsAttrs kMAXSCHEDULINGRETRIES = none := by decide

theorem update_ticket_literal_errors (parseTs : Chars → Int) (now : Int)
    (key : Chars) (body : Dict) :
    (update_ticket constantsAttrs parseTs now key body).1 = [] ∧
    (update_ticket constantsAttrs parseTs now key body).2.isSome = true := by
  unfold update_ticket
  cases h1 : lookupAssoc body kSCHEDULINGTRIES with
  | none => exact ⟨rfl, rfl⟩
  | some triesVal =>
    cases h2 : lookupAssoc body kTIMESTAMP with
    | none => exact ⟨rfl, rfl⟩
    | some tsVal =>
      cases h3 : lookupAssoc body kTIMEOUTLIMIT with
      | none => exact ⟨rfl, rfl⟩
      | some tlVal =>
        rw [lookup_max_retries_none]
        exact ⟨rfl, rfl⟩

theorem cmpToKeyLt_false {α : Type _} (cmp : α → α → Bool) (a b : α) :
    cmpToKeyLt cmp a b = false := by
  cases h : cmp a b <;> simp [cmpToKeyLt, h]

theorem stableInsert_of_lt_false {α : Type _} (lt : α → α → Bool) (x : α)
    (l : List α) (h : ∀ a b, lt a b = false) : stableInsert lt x l = l ++ [x] := by
  induction l with
  | nil => rfl
  | cons y ys ih => simp [stableInsert, h, ih]

theorem pyStableSort_of_lt_false {α : Type _} (lt : α → α → Bool)
    (h : ∀ a b, lt a b = false) (l : List α) : pyStableSort lt l = l := by
  suffices H : ∀ acc, l.foldl (fun acc x => stableInsert lt x acc) acc = acc ++ l by
    simpa using H []
  induction l with
  | nil => simp
  | cons y ys ih =>
    intro acc
    simp only [List.foldl_cons, ih, stableInsert_of_lt_false lt y acc h,
      List.append_assoc, List.singleton_append]

/-- C1: the Admission Decider at line 254 admits a ticket exactly when
utilization + requested < limit, with both sides Python ints; the
boundary utilization + requested = limit falls through to the rejection
branch and is handed to update_ticket.  Admission (when the trigger
succeeds) is observable as the ledger reservation followed by the
ticket deletion. -/
theorem admission_strict_boundary (u r l : Nat) (parseTs : Chars → Int) (now : Int)
    (key : Chars) (body : Dict) (it jt : Chars) :
    (scheduleTail constantsAttrs parseTs now key body it jt (u : Int) (.int (r : Int)) (l : Int) true
        = (update_resource_pool key it (r : Int) jt ++ [.delete key], none)
      ↔ u + r < l) ∧
    scheduleTail constantsAttrs parseTs now key body it jt (u : Int)
        (.int (r : Int)) ((u : Int) + (r : Int)) true
      = update_ticket constantsAttrs parseTs now key body := by
  constructor
  · constructor
    · intro h
      by_contra hge
      have hcond : ¬((u : Int) + (r : Int) < (l : Int)) := by exact_mod_cast hge
      simp only [scheduleTail, if_neg hcond] at h
      have herr := (update_ticket_literal_errors parseTs now key body).2
      rw [h] at herr
      simp at herr
    · intro h
      have hcond : (u : Int) + (r : Int) < (l : Int) := by exact_mod_cast h
      simp [scheduleTail, if_pos hcond]
  · simp [scheduleTail]

/-- C2: every call of update_ticket dereferences
constants.MAX_SCHEDULING_RETRIES, an attribute that constants.py does
not define (it defines MAX_SCHEDULING_TRIES), so for every well-formed
ticket the call raises AttributeError without performing any store
write, instead of implementing the retry/timeout reference decision. -/
theorem update_ticket_always_attribute_error (parseTs : Chars → Int) (now : Int)
    (key : Chars) (body : Dict) (tries : Int) (ts : Chars) (tl : Int)
    (h1 : lookupAssoc body kSCHEDULINGTRIES = some (.int tries))
    (h2 : lookupAssoc body kTIMESTAMP = some (.str ts))
    (h3 : lookupAssoc body kTIMEOUTLIMIT = some (.int tl)) :
    update_ticket constantsAttrs parseTs now key body = ([], some .attributeError) := by
  unfold update_ticket
  rw [h1, h2, h3, lookup_max_retries_none]

/-- Witness for C2: a concrete ticket at the retry limit is answered
with AttributeError, not with a dead-letter move. -/
theorem update_ticket_attribute_error_witness :
    update_ticket constantsAttrs (fun _ => 0) 100
        ("request_tickets/t1_2020-01-01-00-00-00.json".toList)
        [(("SCHEDULING_TRIES".toList), .int 5),
         (("TIMESTAMP".toList), .str ("2020-01-01-00-00-00".toList)),
         (("TIMEOUT_LIMIT".toList), .int 14400)]
      = ([], some .attributeError) :=
  update_ticket_always_attribute_error (fun _ => 0) 100 _ _ 5
    ("2020-01-01-00-00-00".toList) 14400 (by decide) (by decide) (by decide)

/-- C3: the sort at line 232 never reorders the listing.  The
comparator returns a Python bool, and cmp_to_key orders elements by
`cmp(a, b) < 0`, which is false for both bool values, so sorted output
equals input and the scheduler evaluates tickets in the listing order
of the store, not in timestamp order. -/
theorem scheduler_order_follows_listing (l : List (Chars × ObjBody)) :
    sortTickets l = l :=
  pyStableSort_of_lt_false _ (cmpToKeyLt_false ticket_timestamp_cmp_function) l

/-- C6: when a ticket is admitted, a successful trigger is followed by
the two ledger-reservation writes and only then the ticket deletion, in
that exact order; a failed trigger hands the ticket to update_ticket
(the Retry/Timeout Policy) and never deletes it. -/
theorem reserve_before_delete (u r l : Int) (parseTs : Chars → Int) (now : Int)
    (key : Chars) (body : Dict) (it jt : Chars) (h : u + r < l) :
    scheduleTail constantsAttrs parseTs now key body it jt u (.int r) l true
        = (update_resource_pool key it r jt ++ [.delete key], none) ∧
    Action.delete key ∉ update_resource_pool key it r jt ∧
    scheduleTail constantsAttrs parseTs now key body it jt u (.int r) l false
        = update_ticket constantsAttrs parseTs now key body ∧
    Action.delete key ∉ (scheduleTail constantsAttrs parseTs now key body it jt u (.int r) l false).1 := by
  refine ⟨by simp [scheduleTail, if_pos h], ?_, by simp [scheduleTail, if_pos h], ?_⟩
  · simp [update_resource_pool]
  · simp [scheduleTail, if_pos h, (update_ticket_literal_errors parseTs now key body).1]

/-- Witness for C6: a concrete admitted ticket with utilization 0,
request 1, limit 4 and a successful trigger reserves before deleting. -/
theorem reserve_before_delete_witness :
    scheduleTail constantsAttrs (fun _ => 0) 100
        ("request_tickets/t1_2020-01-01-00-00-00.json".toList) [] sMlP3 sTraining
        0 (.int 1) 4 true
      = (update_resource_pool ("request_tickets/t1_2020-01-01-00-00-00.json".toList)
          sMlP3 1 sTraining
          ++ [.delete ("request_tickets/t1_2020-01-01-00-00-00.json".toList)], none) :=
  (reserve_before_delete 0 1 4 (fun _ => 0) 100 _ [] sMlP3 sTraining (by decide)).1

/-- C7: the Resource Classifier reproduces the static four-way decision
table (framework marker tensorflow crossed with accelerator marker gpu)
for every image identifier, and check_sagemaker_instance_limit raises
its invalid-job-metadata assertion exactly for identifiers containing
neither training nor inference. -/
theorem classifier_table_and_invalid_image (image : Chars) :
    assign_sagemaker_instance_type image
        = specFourWayTable (containsSub sTensorflow image) (containsSub sGpu image) ∧
    ((check_sagemaker_instance_limit image = .error .assertionError)
      ↔ (containsSub sTraining image || containsSub sInference image) = false) := by
  constructor
  · unfold assign_sagemaker_instance_type specFourWayTable
    cases containsSub sTensorflow image <;> cases containsSub sGpu image <;> rfl
  · by_cases hv : (containsSub sTraining image || containsSub sInference image) = true
    · simp only [hv, Bool.true_eq_false, iff_false]
      intro hcontra
      unfold check_sagemaker_instance_limit assign_sagemaker_instance_type at hcontra
      rw [if_pos hv] at hcontra
      cases htr : containsSub sTraining image <;>
        cases htf : containsSub sTensorflow image <;>
          cases hg : containsSub sGpu image <;>
            simp [htr, htf, hg, TRAINING_LIMIT, INFERENCE_LIMIT, lookupAssoc] at hcontra <;>
              revert hcontra <;> decide
    · have hv2 : (containsSub sTraining image || containsSub sInference image) = false := by
        revert hv; cases containsSub sTraining image <;> cases containsSub sInference image <;> simp
      simp only [hv2, iff_true]
      unfold check_sagemaker_instance_limit
      rw [if_neg (by simp [hv2])]

theorem lookupAssoc_dictSet_self (d : Dict) (k : Chars) (v : PyVal) :
    lookupAssoc (dictSet d k v) k = some v := by
  induction d with
  | nil => simp [dictSet, lookupAssoc]
  | cons p rest ih =>
    by_cases h : p.1 = k
    · simp [dictSet, h, lookupAssoc]
    · simp [dictSet, h, lookupAssoc, ih]

theorem lookupAssoc_dictSet_ne (d : Dict) (k f : Chars) (v : PyVal) (h : f ≠ k) :
    lookupAssoc (dictSet d k v) f = lookupAssoc d f := by
  induction d with
  | nil => simp [dictSet, lookupAssoc, Ne.symm h]
  | cons p rest ih =>
    by_cases hp : p.1 = k
    · simp [dictSet, hp, lookupAssoc, h, Ne.symm h]
    · simp [dictSet, hp, lookupAssoc, ih]

theorem afterLastSep_no_sep (sep : Char) (l : Chars) (h : sep ∉ l) :
    afterLastSep sep l = l := by
  cases l with
  | nil => rfl
  | cons c rest =>
    have : ¬(c = sep ∨ sep ∈ rest) := by
      rintro (rfl | hm)
      · exact h (List.mem_cons_self c rest)
      · exact h (List.mem_cons_of_mem c hm)
    simp [afterLastSep, this]

theorem afterLastSep_append_sep (sep : Char) (xs ys : Chars) (h : sep ∉ ys) :
    afterLastSep sep (xs ++ sep :: ys) = ys := by
  induction xs with
  | nil =>
    have : sep = sep ∨ sep ∈ ys := Or.inl rfl
    simp only [List.nil_append, afterLastSep, this, if_pos]
    exact afterLastSep_no_sep sep ys h
  | cons c xs ih =>
    have hm : sep ∈ xs ++ sep :: ys := List.mem_append_right xs (List.mem_cons_self sep ys)
    simp only [List.cons_append, afterLastSep]
    show (if c = sep ∨ sep ∈ xs ++ sep :: ys then afterLastSep sep (xs ++ sep :: ys)
        else c :: (xs ++ sep :: ys)) = ys
    rw [if_pos (Or.inr hm)]
    exact ih

theorem sRequestTickets_split :
    sRequestTickets = "request_tickets".toList ++ ['/'] := by decide

/-- C8: the requeue branch of update_ticket (lines 190-196), reached
when the tries counter is below the resolved retry limit and the age is
within the timeout limit, rewrites the ticket under its original
request-queue key with SCHEDULING_TRIES incremented by exactly one and
every other field unchanged.  The constants lookup is a hypothesis
because constants.py does not actually define MAX_SCHEDULING_RETRIES
(the C2 defect); the branch itself behaves as claimed whenever the
lookup resolves. -/
theorem requeue_frame_effect (consts : List (Chars × Int)) (parseTs : Chars → Int)
    (now : Int) (name : Chars) (body : Dict) (tries maxR tl : Int) (ts : Chars)
    (hm : lookupAssoc consts kMAXSCHEDULINGRETRIES = some maxR)
    (h1 : lookupAssoc body kSCHEDULINGTRIES = some (.int tries))
    (h2 : lookupAssoc body kTIMESTAMP = some (.str ts))
    (h3 : lookupAssoc body kTIMEOUTLIMIT = some (.int tl))
    (htries : tries < maxR)
    (hage : now - parseTs ts ≤ tl)
    (hname : '/' ∉ name) :
    update_ticket consts parseTs now (sRequestTickets ++ name) body
        = ([.put (sRequestTickets ++ name) .empty,
            .put (sRequestTickets ++ name)
              (.dict (dictSet body kSCHEDULINGTRIES (.int (tries + 1))))], none) ∧
    lookupAssoc (dictSet body kSCHEDULINGTRIES (.int (tries + 1))) kSCHEDULINGTRIES
        = some (.int (tries + 1)) ∧
    ∀ f : Chars, f ≠ kSCHEDULINGTRIES →
      lookupAssoc (dictSet body kSCHEDULINGTRIES (.int (tries + 1))) f
        = lookupAssoc body f := by
  have hbase : afterLastSep '/' (sRequestTickets ++ name) = name := by
    rw [sRequestTickets_split, List.append_assoc, List.singleton_append]
    exact afterLastSep_append_sep '/' _ name hname
  refine ⟨?_, lookupAssoc_dictSet_self body kSCHEDULINGTRIES _,
    fun f hf => lookupAssoc_dictSet_ne body kSCHEDULINGTRIES f _ hf⟩
  unfold update_ticket
  rw [h1, h2, h3, hm]
  simp only [if_neg (not_le.mpr htries), if_neg (not_lt.mpr hage), hbase]

/-- Witness for C8: a concrete not-exhausted, not-timed-out ticket is
requeued under its own key with tries 0 becoming 1. -/
theorem requeue_frame_witness :
    update_ticket [(("MAX_SCHEDULING_RETRIES".toList), (5 : Int))] (fun _ => 0) 100
        (sRequestTickets ++ ("t1_2020-01-01-00-00-00.json".toList))
        [(("SCHEDULING_TRIES".toList), .int 0),
         (("TIMESTAMP".toList), .str ("2020-01-01-00-00-00".toList)),
         (("TIMEOUT_LIMIT".toList), .int 14400)]
      = ([.put (sRequestTickets ++ ("t1_2020-01-01-00-00-00.json".toList)) .empty,
          .put (sRequestTickets ++ ("t1_2020-01-01-00-00-00.json".toList))
            (.dict (dictSet
              [(("SCHEDULING_TRIES".toList), .int 0),
               (("TIMESTAMP".toList), .str ("2020-01-01-00-00-00".toList)),
               (("TIMEOUT_LIMIT".toList), .int 14400)]
              kSCHEDULINGTRIES (.int 1)))], none) :=
  (requeue_frame_effect [(("MAX_SCHEDULING_RETRIES".toList), (5 : Int))] (fun _ => 0) 100
    ("t1_2020-01-01-00-00-00.json".toList) _ 0 5 14400 ("2020-01-01-00-00-00".toList)
    (by decide) (by decide) (by decide) (by decide) (by decide) (by decide) (by decide)).1

/-- C9: when the ledger of the resource class of a reachable ticket
shows utilization strictly above the quota limit, the assert at lines
249-251 raises AssertionError and the whole pass aborts at that ticket:
no matter what tickets follow, nothing more is evaluated and no store
write happens. -/
theorem quota_assert_aborts_pass (env : Env) (i : Nat) (st : Store)
    (key : Chars) (lb : ObjBody) (rest : List (Chars × ObjBody)) (body : Dict)
    (image : Chars) (required u l : Int)
    (hcl : check_timeout (env.elapsedAt i) = false)
    (hget : lookupAssoc st key = some (.dict body))
    (hub : lookupAssoc body kECRURI = some (.str image))
    (hc : (lookupAssoc body kCONTEXT).isNone = false)
    (hr : (lookupAssoc body kRETURNSQSURL).isNone = false)
    (hn : lookupAssoc body kINSTANCESNUM = some (.int required))
    (hu : get_num_instances_running (assign_sagemaker_instance_type image)
            (if containsSub sTraining image then sTraining else sInference) st = .ok u)
    (hl : check_sagemaker_instance_limit image = .ok l)
    (hover : l < u) :
    runPass env i st ((key, lb) :: rest) = ([], st, .failed .assertionError) := by
  have hnl : ¬ l ≥ u := not_le.mpr hover
  have hpt : processTicket env i st key = ([], st, some .assertionError) := by
    unfold processTicket
    simp only [hget, pyJsonLoads, hub, hc, hr, hn, Bool.false_eq_true, if_false, hu, hl]
    simp [hnl]
  unfold runPass
  rw [hcl]
  simp only [Bool.false_eq_true, if_false]
  rw [hpt]

/-- Witness for C9: a concrete resource class whose ledger sums to 27
against a limit of 20 makes the pass fail with AssertionError. -/
theorem quota_assert_witness :
    (runPass (⟨fun _ => true, fun _ => 0, fun _ => 0, fun _ => 0⟩ : Env) 0
        [(("request_tickets/t1_2020-01-01-00-00-00.json".toList),
          ObjBody.dict
            [(kECRURI, .str ("pr-tensorflow-inference:2.2.0-gpu-py37".toList)),
             (kCONTEXT, .str ("PR".toList)),
             (kRETURNSQSURL, .str ("DUMMY".toList)),
             (kINSTANCESNUM, .int 1)]),
         (("resource_pool/ml.p3.8xlarge-inference/x1#9-preparing.json".toList), ObjBody.empty),
         (("resource_pool/ml.p3.8xlarge-inference/x2#9-preparing.json".toList), ObjBody.empty),
         (("resource_pool/ml.p3.8xlarge-inference/x3#9-running.json".toList), ObjBody.empty)]
        [(("request_tickets/t1_2020-01-01-00-00-00.json".toList), ObjBody.empty)]).2.2
      = PassResult.failed PyErr.assertionError := by
  rw [quota_assert_aborts_pass
    (⟨fun _ => true, fun _ => 0, fun _ => 0, fun _ => 0⟩ : Env) 0
    [(("request_tickets/t1_2020-01-01-00-00-00.json".toList),
      ObjBody.dict
        [(kECRURI, .str ("pr-tensorflow-inference:2.2.0-gpu-py37".toList)),
         (kCONTEXT, .str ("PR".toList)),
         (kRETURNSQSURL, .str ("DUMMY".toList)),
         (kINSTANCESNUM, .int 1)]),
     (("resource_pool/ml.p3.8xlarge-inference/x1#9-preparing.json".toList), ObjBody.empty),
     (("resource_pool/ml.p3.8xlarge-inference/x2#9-preparing.json".toList), ObjBody.empty),
     (("resource_pool/ml.p3.8xlarge-inference/x3#9-running.json".toList), ObjBody.empty)]
    ("request_tickets/t1_2020-01-01-00-00-00.json".toList) ObjBody.empty []
    [(kECRURI, .str ("pr-tensorflow-inference:2.2.0-gpu-py37".toList)),
     (kCONTEXT, .str ("PR".toList)),
     (kRETURNSQSURL, .str ("DUMMY".toList)),
     (kINSTANCESNUM, .int 1)]
    ("pr-tensorflow-inference:2.2.0-gpu-py37".toList) 1 27 20
    (by decide) (by decide) (by decide) (by decide) (by decide) (by decide)
    (by decide) (by decide) (by decide)]

/-- C5 amended: a ticket whose stored body is not a parseable JSON
object makes json.loads at line 238 raise an uncaught JSONDecodeError,
aborting the pass at that ticket: whatever tickets remain are not
evaluated and no store write happens. -/
theorem malformed_ticket_aborts_pass (env : Env) (i : Nat) (st : Store)
    (key : Chars) (lb b : ObjBody) (rest : List (Chars × ObjBody))
    (hcl : check_timeout (env.elapsedAt i) = false)
    (hget : lookupAssoc st key = some b)
    (hbad : pyJsonLoads b = .error .jsonDecodeError) :
    runPass env i st ((key, lb) :: rest) = ([], st, .failed .jsonDecodeError) := by
  have hpt : processTicket env i st key = ([], st, some .jsonDecodeError) := by
    unfold processTicket
    simp only [hget, hbad]
  unfold runPass
  rw [hcl]
  simp only [Bool.false_eq_true, if_false]
  rw [hpt]

/-- Witness for the amended C5: one concrete unparseable ticket body
fails the pass with JSONDecodeError. -/
theorem malformed_ticket_abort_witness :
    runPass (⟨fun _ => true, fun _ => 0, fun _ => 0, fun _ => 0⟩ : Env) 0
        [(("request_tickets/a_2020-01-01-00-00-00.json".toList),
          ObjBody.raw ("not json".toList))]
        [(("request_tickets/a_2020-01-01-00-00-00.json".toList),
          ObjBody.raw ("not json".toList))]
      = ([],
         [(("request_tickets/a_2020-01-01-00-00-00.json".toList),
           ObjBody.raw ("not json".toList))],
         .failed .jsonDecodeError) :=
  malformed_ticket_aborts_pass (⟨fun _ => true, fun _ => 0, fun _ => 0, fun _ => 0⟩ : Env) 0
    [(("request_tickets/a_2020-01-01-00-00-00.json".toList),
      ObjBody.raw ("not json".toList))]
    ("request_tickets/a_2020-01-01-00-00-00.json".toList)
    (ObjBody.raw ("not json".toList))
    (ObjBody.raw ("not json".toList)) [] (by decide) (by decide) (by decide)

/-- Counterexample for C5 as stated: a pass over a malformed first
ticket and a well-formed, admissible second ticket aborts with
JSONDecodeError and performs no write at all, while the same second
ticket alone is processed to completion with writes; the malformed
ticket is not skipped and the pass does not continue. -/
theorem malformed_ticket_counterexample :
    lambda_handler (⟨fun _ => true, fun _ => 0, fun _ => 0, fun _ => 0⟩ : Env)
        [(("request_tickets/a_2020-01-01-00-00-00.json".toList),
          ObjBody.raw ("not json".toList)),
         (("request_tickets/b_2020-01-01-00-00-05.json".toList),
          ObjBody.dict
            [(kECRURI, .str ("pr-tensorflow-training:2.2.0-gpu-py37".toList)),
             (kCONTEXT, .str ("PR".toList)),
             (kRETURNSQSURL, .str ("DUMMY".toList)),
             (kINSTANCESNUM, .int 1),
             (kSCHEDULINGTRIES, .int 0),
             (kTIMESTAMP, .str ("2020-01-01-00-00-05".toList)),
             (kTIMEOUTLIMIT, .int 14400)]),
         (("resource_pool/ml.p3.8xlarge-training/x1#1-preparing.json".toList),
          ObjBody.empty)]
      = ([],
         [(("request_tickets/a_2020-01-01-00-00-00.json".toList),
           ObjBody.raw ("not json".toList)),
          (("request_tickets/b_2020-01-01-00-00-05.json".toList),
           ObjBody.dict
             [(kECRURI, .str ("pr-tensorflow-training:2.2.0-gpu-py37".toList)),
              (kCONTEXT, .str ("PR".toList)),
              (kRETURNSQSURL, .str ("DUMMY".toList)),
              (kINSTANCESNUM, .int 1),
              (kSCHEDULINGTRIES, .int 0),
              (kTIMESTAMP, .str ("2020-01-01-00-00-05".toList)),
              (kTIMEOUTLIMIT, .int 14400)]),
          (("resource_pool/ml.p3.8xlarge-training/x1#1-preparing.json".toList),
           ObjBody.empty)],
         .failed .jsonDecodeError) ∧
    (lambda_handler (⟨fun _ => true, fun _ => 0, fun _ => 0, fun _ => 0⟩ : Env)
        [(("request_tickets/b_2020-01-01-00-00-05.json".toList),
          ObjBody.dict
            [(kECRURI, .str ("pr-tensorflow-training:2.2.0-gpu-py37".toList)),
             (kCONTEXT, .str ("PR".toList)),
             (kRETURNSQSURL, .str ("DUMMY".toList)),
             (kINSTANCESNUM, .int 1),
             (kSCHEDULINGTRIES, .int 0),
             (kTIMESTAMP, .str ("2020-01-01-00-00-05".toList)),
             (kTIMEOUTLIMIT, .int 14400)]),
         (("resource_pool/ml.p3.8xlarge-training/x1#1-preparing.json".toList),
          ObjBody.empty)]).2.2
      = PassResult.done := by
  constructor
  · decide
  · decide

theorem sumReserved_error_of_mem (keys : List Chars) (bad : Chars)
    (hmem : bad ∈ keys)
    (hsuf : (pyEndsWith bad sPreparingJson || pyEndsWith bad sRunningJson) = true)
    (hparse : reLastHashDigitDash bad = none) :
    sumReserved keys = .error .attributeError := by
  induction keys with
  | nil => cases hmem
  | cons k rest ih =>
    rcases List.mem_cons.mp hmem with rfl | hmem2
    · unfold sumReserved
      rw [if_pos hsuf, hparse]
    · unfold sumReserved
      by_cases hf : (pyEndsWith k sPreparingJson || pyEndsWith k sRunningJson) = true
      · rw [if_pos hf]
        cases hp : reLastHashDigitDash k with
        | none => rfl
        | some n => rw [ih hmem2]; rfl
      · rw [if_neg hf]
        exact ih hmem2

/-- C4 amended: a ledger entry that passes the preparing/running suffix
filter but whose key does not contain the hash-digit-dash pattern makes
get_num_instances_running raise AttributeError (None has no attribute
group), aborting the scan instead of skipping the entry; keys that fail
the suffix filter are skipped. -/
theorem malformed_ledger_entry_aborts_scan (it jt : Chars) (st : Store) (bad : Chars)
    (hmem : bad ∈ (listUnder (poolNamespace it jt) st).map Prod.fst)
    (hsuf : (pyEndsWith bad sPreparingJson || pyEndsWith bad sRunningJson) = true)
    (hparse : reLastHashDigitDash bad = none) :
    get_num_instances_running it jt st = .error .attributeError := by
  unfold get_num_instances_running
  cases hL : listUnder (poolNamespace it jt) st with
  | nil => rw [hL] at hmem; cases hmem
  | cons e es =>
    rw [hL] at hmem
    exact sumReserved_error_of_mem _ bad hmem hsuf hparse

/-- Witness for the amended C4: a concrete namespace with one malformed
entry between two well-formed ones aborts with AttributeError. -/
theorem ledger_scan_abort_witness :
    get_num_instances_running sMlP3 sTraining
        [(("resource_pool/ml.p3.8xlarge-training/a#3-preparing.json".toList), ObjBody.empty),
         (("resource_pool/ml.p3.8xlarge-training/bad-preparing.json".toList), ObjBody.empty),
         (("resource_pool/ml.p3.8xlarge-training/c#2-running.json".toList), ObjBody.empty)]
      = .error .attributeError :=
  malformed_ledger_entry_aborts_scan sMlP3 sTraining _
    ("resource_pool/ml.p3.8xlarge-training/bad-preparing.json".toList)
    (by decide) (by decide) (by decide)

/-- Counterexample for C4 as stated: with the same malformed entry
present the scan aborts with AttributeError, while the remaining
well-formed entries alone sum to 5, the value the claim says the
malformed-tolerant scan should return. -/
theorem ledger_scan_abort_counterexample :
    get_num_instances_running sMlP3 sTraining
        [(("resource_pool/ml.p3.8xlarge-training/a#3-preparing.json".toList), ObjBody.empty),
         (("resource_pool/ml.p3.8xlarge-training/bad-preparing.json".toList), ObjBody.empty),
         (("resource_pool/ml.p3.8xlarge-training/c#2-running.json".toList), ObjBody.empty)]
      ≠ .ok 5 ∧
    get_num_instances_running sMlP3 sTraining
        [(("resource_pool/ml.p3.8xlarge-training/a#3-preparing.json".toList), ObjBody.empty),
         (("resource_pool/ml.p3.8xlarge-training/c#2-running.json".toList), ObjBody.empty)]
      = .ok 5 := by
  constructor
  · decide
  · decide

theorem reLastHashDigitDash_cons (c : Char) (rest : Chars) :
    reLastHashDigitDash (c :: rest)
      = (match reLastHashDigitDash rest with
         | some n => some n
         | none => reHeadMatch c rest) := rfl

theorem reHeadMatch_ne_hash (c : Char) (rest : Chars) (hc : c ≠ '#') :
    reHeadMatch c rest = none := by
  unfold reHeadMatch
  split
  · exact absurd rfl hc
  · rfl

theorem reLastHashDigitDash_no_hash (l : Chars) (h : '#' ∉ l) :
    reLastHashDigitDash l = none := by
  induction l with
  | nil => rfl
  | cons c rest ih =>
    have hc : c ≠ '#' := fun e => h (by rw [e]; exact List.mem_cons_self _ _)
    have hrest : '#' ∉ rest := fun hm => h (List.mem_cons_of_mem c hm)
    rw [reLastHashDigitDash_cons, ih hrest, reHeadMatch_ne_hash c rest hc]

theorem reLastHashDigitDash_append (xs ys : Chars) (n : Nat)
    (h : reLastHashDigitDash ys = some n) :
    reLastHashDigitDash (xs ++ ys) = some n := by
  induction xs with
  | nil => simpa using h
  | cons c rest ih =>
    show reLastHashDigitDash (c :: (rest ++ ys)) = some n
    rw [reLastHashDigitDash_cons, ih]

theorem reLastHashDigitDash_hash_digit (d : Char) (tail : Chars)
    (hd : d.isDigit = true) (ht : '#' ∉ d :: '-' :: tail) :
    reLastHashDigitDash ('#' :: d :: '-' :: tail) = some (d.toNat - 48) := by
  rw [reLastHashDigitDash_cons, reLastHashDigitDash_no_hash _ ht]
  simp [reHeadMatch, hd]

theorem reLastHashDigitDash_concat (A : Chars) (d : Char) (S : Chars)
    (hd : d.isDigit = true) (hdh : d ≠ '#') (hS : '#' ∉ S) :
    reLastHashDigitDash (A ++ '#' :: d :: '-' :: S) = some (d.toNat - 48) := by
  apply reLastHashDigitDash_append
  apply reLastHashDigitDash_hash_digit d S hd
  intro hmem
  rcases List.mem_cons.mp hmem with h1 | h2
  · exact hdh h1.symm
  · rcases List.mem_cons.mp h2 with h3 | h4
    · exact absurd h3 (by decide)
    · exact hS h4

theorem startsWithChars_append (a b : Chars) : startsWithChars a (a ++ b) = true := by
  induction a with
  | nil => rfl
  | cons c cs ih => simp [startsWithChars, ih]

theorem pyEndsWith_append (xs s : Chars) : pyEndsWith (xs ++ s) s = true := by
  unfold pyEndsWith
  rw [List.reverse_append]
  exact startsWithChars_append _ _

theorem pool_key_roundtrip_aux (ticket_key it jt : Chars) (n : Int) (r : Nat) (d : Char)
    (hds : (toString n).toList = [d]) (hd : d.isDigit = true) (hdh : d ≠ '#')
    (hval : d.toNat - 48 = r) :
    reLastHashDigitDash (poolTicketKey ticket_key it jt n) = some r ∧
    pyEndsWith (poolTicketKey ticket_key it jt n) sPreparingJson = true ∧
    ∀ (restKeys : List Chars) (u : Int),
      sumReserved restKeys = .ok u →
      sumReserved (poolTicketKey ticket_key it jt n :: restKeys) = .ok ((r : Int) + u) := by
  have hkey : poolTicketKey ticket_key it jt n
      = (poolNamespace it jt ++ beforeFirstDot (afterLastSep '/' ticket_key))
          ++ '#' :: d :: '-' :: sPreparingJson := by
    unfold poolTicketKey
    rw [hds]
    simp
  have hS : '#' ∉ sPreparingJson := by decide
  have h1 : reLastHashDigitDash (poolTicketKey ticket_key it jt n) = some r := by
    rw [hkey, ← hval]
    exact reLastHashDigitDash_concat _ d _ hd hdh hS
  have h2 : pyEndsWith (poolTicketKey ticket_key it jt n) sPreparingJson = true := by
    rw [hkey]
    have hsplit : (poolNamespace it jt ++ beforeFirstDot (afterLastSep '/' ticket_key))
          ++ '#' :: d :: '-' :: sPreparingJson
        = ((poolNamespace it jt ++ beforeFirstDot (afterLastSep '/' ticket_key))
            ++ ['#', d, '-']) ++ sPreparingJson := by
      simp
    rw [hsplit]
    exact pyEndsWith_append _ _
  refine ⟨h1, h2, ?_⟩
  intro restKeys u hu
  unfold sumReserved
  rw [if_pos (by simp [h2]), h1, hu]
  rfl

/-- C10: the ledger key written by update_resource_pool for a
single-digit instance count encodes the count so that the regular
expression of get_num_instances_running parses back exactly that count:
the key passes the preparing/running status filter, the parsed reserved
count equals the written count, and the entry contributes exactly that
count to the utilization sum. -/
theorem pool_key_roundtrip (ticket_key it jt : Chars) (r : Nat) (hr : r ≤ 9) :
    reLastHashDigitDash (poolTicketKey ticket_key it jt (r : Int)) = some r ∧
    pyEndsWith (poolTicketKey ticket_key it jt (r : Int)) sPreparingJson = true ∧
    ∀ (restKeys : List Chars) (u : Int),
      sumReserved restKeys = .ok u →
      sumReserved (poolTicketKey ticket_key it jt (r : Int) :: restKeys)
        = .ok ((r : Int) + u) := by
  interval_cases r <;>
    all_goals first
      | exact pool_key_roundtrip_aux ticket_key it jt _ _ '0'
          (by decide) (by decide) (by decide) (by decide)
      | exact pool_key_roundtrip_aux ticket_key it jt _ _ '1'
          (by decide) (by decide) (by decide) (by decide)
      | exact pool_key_roundtrip_aux ticket_key it jt _ _ '2'
          (by decide) (by decide) (by decide) (by decide)
      | exact pool_key_roundtrip_aux ticket_key it jt _ _ '3'
          (by decide) (by decide) (by decide) (by decide)
      | exact pool_key_roundtrip_aux ticket_key it jt _ _ '4'
          (by decide) (by decide) (by decide) (by decide)
      | exact pool_key_roundtrip_aux ticket_key it jt _ _ '5'
          (by decide) (by decide) (by decide) (by decide)
      | exact pool_key_roundtrip_aux ticket_key it jt _ _ '6'
          (by decide) (by decide) (by decide) (by decide)
      | exact pool_key_roundtrip_aux ticket_key it jt _ _ '7'
          (by decide) (by decide) (by decide) (by decide)
      | exact pool_key_roundtrip_aux ticket_key it jt _ _ '8'
          (by decide) (by decide) (by decide) (by decide)
      | exact pool_key_roundtrip_aux ticket_key it jt _ _ '9'
          (by decide) (by decide) (by decide) (by decide)

/-- Witness for C10: count 3 round-trips through a concrete ledger key
and contributes 3 to the sum. -/
theorem pool_key_roundtrip_witness :
    reLastHashDigitDash
        (poolTicketKey ("request_tickets/t1_2020-01-01-00-00-00.json".toList)
          sMlP3 sTraining 3) = some 3 ∧
    sumReserved
        [poolTicketKey ("request_tickets/t1_2020-01-01-00-00-00.json".toList)
          sMlP3 sTraining 3] = .ok 3 := by
  have h := pool_key_roundtrip ("request_tickets/t1_2020-01-01-00-00-00.json".toList)
    sMlP3 sTraining 3 (by decide)
  refine ⟨h.1, ?_⟩
  have h3 := h.2.2 [] 0 rfl
  simpa using h3

end Sched
